import Mathlib

/-!
Verification development for the reader-core of `satpy` (file
`satpy/readers/__init__.py`): the composite-key registry (`DatasetDict` /
`DatasetID`), wavelength matching (`DatasetDict._wl_match`), key resolution
(`DatasetDict.get_key`, `DatasetDict.get_keys`, `DatasetDict.get_keys_by_datasetid`,
`Reader.get_dataset_key`), registry insertion (`DatasetDict.__setitem__` /
`__getitem__`), granule filtering (`ConfigBasedReader._get_swathsegment`),
multi-granule assembly (`MultiFileReader.get_swath_data`,
`MultiFileReader.load_metadata`) and time-window file discovery
(`ReaderFinder.get_filenames`).

Python runtime values relevant to wavelength handling are modelled by a small
value universe (`PyNum`, `PyWl`): a wavelength in the source is `None`, a
number (int or float), or a list/tuple of numbers.  Python exceptions are
modelled with `Except PyErr`.  Dynamic `type(a) == type(b)` checks, Python 2
total ordering of mixed types (`None` smaller than numbers, numbers smaller
than containers, `list` before `tuple` by type name) and Python chained
comparisons with short-circuit evaluation are reproduced explicitly.
-/

namespace Satpy

/-- Python exception model: the reader core raises `ValueError`, `TypeError`,
`KeyError` and (via list indexing) `IndexError`. -/
inductive PyErr where
  | valueError (msg : String)
  | typeError (msg : String)
  | keyError (msg : String)
  | indexError (msg : String)
deriving DecidableEq, Repr

/-- A Python number as used for wavelengths: `int` or `float`.  Floats are
modelled by rationals (all numerals appearing in the source are exact). -/
inductive PyNum where
  | int (n : Int)
  | float (q : Rat)
deriving DecidableEq, Repr

/-- Numeric value of a Python number. -/
def PyNum.toRat : PyNum → Rat
  | .int n => (n : Rat)
  | .float q => q

/-- Python `==` on numbers compares numerically across int/float. -/
def PyNum.eqb (a b : PyNum) : Bool := a.toRat == b.toRat

/-- Python `<=` on numbers. -/
def PyNum.leb (a b : PyNum) : Bool := decide (a.toRat ≤ b.toRat)

/-- A Python value in wavelength position: `None`, a number, or a
tuple/list of numbers (the shapes the source actually stores and compares). -/
inductive PyWl where
  | none
  | num (v : PyNum)
  | tuple (xs : List PyNum)
  | list (xs : List PyNum)
deriving DecidableEq, Repr

/-- Python runtime types distinguished by the `type(a) == type(b)` test in
`DatasetDict._wl_match`. -/
inductive PyType where
  | noneT
  | intT
  | floatT
  | tupleT
  | listT
deriving DecidableEq, Repr

/-- Runtime type of a wavelength value (`type(a)` in Python). -/
def PyWl.typeOf : PyWl → PyType
  | .none => .noneT
  | .num (.int _) => .intT
  | .num (.float _) => .floatT
  | .tuple _ => .tupleT
  | .list _ => .listT

/-- Python `==` on two equal-length numeric sequences (elementwise). -/
def numListEq : List PyNum → List PyNum → Bool
  | [], [] => true
  | x :: xs, y :: ys => x.eqb y && numListEq xs ys
  | _, _ => false

/-- Python `==` on wavelength values.  Numbers compare numerically; a tuple is
never `==` a list; sequences of the same kind compare elementwise. -/
def pyEq (a b : PyWl) : Bool :=
  match a, b with
  | .none, .none => true
  | .num x, .num y => x.eqb y
  | .tuple xs, .tuple ys => numListEq xs ys
  | .list xs, .list ys => numListEq xs ys
  | _, _ => false

/-- Rank used by the Python 2 cross-type ordering: `None` is smaller than
everything, numbers are smaller than sequences, and `list` sorts before
`tuple` (type-name order). -/
def PyWl.py2Rank : PyWl → Nat
  | .none => 0
  | .num _ => 1
  | .list _ => 2
  | .tuple _ => 3

/-- Lexicographic `<=` on numeric sequences (Python sequence comparison). -/
def numListLe : List PyNum → List PyNum → Bool
  | [], _ => true
  | _ :: _, [] => false
  | x :: xs, y :: ys =>
    if x.eqb y then numListLe xs ys else x.leb y

/-- Python 2 `<=` on wavelength values: numeric comparison for numbers,
lexicographic comparison for same-kind sequences, rank order across types.
The source runs on Python 2 (`six` compatibility layer), where such mixed
comparisons return a boolean instead of raising. -/
def pyLe (a b : PyWl) : Bool :=
  match a, b with
  | .num x, .num y => x.leb y
  | .tuple xs, .tuple ys => numListLe xs ys
  | .list xs, .list ys => numListLe xs ys
  | _, _ => a.py2Rank ≤ b.py2Rank

/-- Whether the value is a list or tuple of length 3
(`isinstance(a, (list, tuple)) and len(a) == 3`). -/
def PyWl.isLen3Seq : PyWl → Bool
  | .tuple xs => xs.length == 3
  | .list xs => xs.length == 3
  | _ => false

/-- Element `w[i]` of a sequence value, as a wavelength value; only evaluated
under an `isLen3Seq` guard in `wlMatch`, where it is total. -/
def PyWl.seqNth (w : PyWl) (i : Nat) : PyWl :=
  match w with
  | .tuple xs => match xs.get? i with | some n => .num n | Option.none => .none
  | .list xs => match xs.get? i with | some n => .num n | Option.none => .none
  | _ => .none

/-- Message of the `ValueError` raised by `DatasetDict._wl_match`. -/
def wlMatchErrMsg : String := "Can only compare wavelengths of length 1 or 3"

/-- Embedding of `DatasetDict._wl_match(a, b)`: if `type(a) == type(b)` return
`a == b`; else if `a` is a length-3 list/tuple return `a[0] <= b <= a[2]`;
else if `b` is, return `b[0] <= a <= b[2]`; otherwise raise `ValueError`.
Chained comparison short-circuits as in Python. -/
def wlMatch (a b : PyWl) : Except PyErr Bool :=
  if a.typeOf == b.typeOf then
    .ok (pyEq a b)
  else if a.isLen3Seq then
    .ok (pyLe (a.seqNth 0) b && pyLe b (a.seqNth 2))
  else if b.isLen3Seq then
    .ok (pyLe (b.seqNth 0) a && pyLe a (b.seqNth 2))
  else
    .error (.valueError wlMatchErrMsg)

/-- Left-to-right effectful traversal with Python exception semantics: the
first raised exception aborts the enclosing call (used to model list
comprehensions and loops whose body may raise). -/
def mapME (f : A → Except PyErr B) : List A → Except PyErr (List B)
  | [] => .ok []
  | x :: xs => do
    let y ← f x
    let ys ← mapME f xs
    pure (y :: ys)

/-- Embedding of the `DatasetID` namedtuple: fields
`(name, wavelength, resolution, polarization, calibration)`, all defaulting
to `None`.  `wavelength` keeps the dynamic Python value (`None`, number, or
tuple); the other fields are `Option`s of their usual types. -/
structure DatasetID where
  name : Option String := Option.none
  wavelength : PyWl := .none
  resolution : Option Int := Option.none
  polarization : Option String := Option.none
  calibration : Option String := Option.none
deriving DecidableEq, Repr

/-- Python `==` on two `DatasetID` namedtuples (fieldwise `==`, numeric for
the wavelength field); this is the equality `dict` uses for its keys. -/
def didEq (a b : DatasetID) : Bool :=
  a.name == b.name && pyEq a.wavelength b.wavelength &&
    a.resolution == b.resolution && a.polarization == b.polarization &&
    a.calibration == b.calibration

/-- Embedding of the metadata dictionary stored as a `DatasetDict` value (the
`value.info if isinstance(value, Projectable) else value` dictionary of
`__setitem__`; the plain-dict case is modelled).  `wlPresent`/`wlValue`
model `"wavelength_range" in d` and `d["wavelength_range"]` separately, since
Python distinguishes an absent key from a key stored with value `None`. -/
structure MetaVal where
  name : Option String := Option.none
  resolution : Option Int := Option.none
  polarization : Option String := Option.none
  calibration : Option String := Option.none
  wlPresent : Bool := false
  wlValue : PyWl := .none
deriving DecidableEq, Repr

/-- Value of `d.get("wavelength_range")`: the stored value when the key is
present, `None` otherwise. -/
def MetaVal.getWl (d : MetaVal) : PyWl :=
  if d.wlPresent then d.wlValue else .none

/-- The `DatasetDict` registry as an insertion-ordered association list, the
iteration order of the underlying `dict`. -/
abbrev DDict := List (DatasetID × MetaVal)

/-- Stored keys in iteration order (`DatasetDict.keys()`). -/
def keysOf (R : DDict) : List DatasetID := R.map (·.1)

/-- Raw `dict.__setitem__`: replace the value of the first key equal (by
Python `==`) to `k`, keeping the originally stored key object, or append a
new entry at the end. -/
def dictSet (R : DDict) (k : DatasetID) (v : MetaVal) : DDict :=
  match R with
  | [] => [(k, v)]
  | (k0, v0) :: rest =>
    if didEq k0 k then (k0, v) :: rest else (k0, v0) :: dictSet rest k v

/-- Raw `dict.__getitem__` as an option: the value of the first key equal (by
Python `==`) to `k`. -/
def dictGet? (R : DDict) (k : DatasetID) : Option MetaVal :=
  (R.find? (fun p => didEq p.1 k)).map (·.2)

/-- A runtime key argument to a `DatasetDict` operation: a `DatasetID`, a
number, or a string (the three `isinstance` cases of `get_key` and
`__setitem__`). -/
inductive PyKey where
  | did (d : DatasetID)
  | num (n : PyNum)
  | str (s : String)
deriving DecidableEq, Repr

/-- Numeric branch of `DatasetDict.get_key`: return the first stored key `k`
(in iteration order) with `k.wavelength is not None and
self._wl_match(k.wavelength, key)`; an exception from `_wl_match`
propagates. -/
def findWlMatch (q : PyNum) : List DatasetID → Except PyErr (Option DatasetID)
  | [] => .ok Option.none
  | k :: ks =>
    if k.wavelength = .none then findWlMatch q ks
    else do
      let b ← wlMatch k.wavelength (.num q)
      if b then pure (some k) else findWlMatch q ks

/-- Wavelength stage of `DatasetDict.get_keys_by_datasetid`:
`[k for k in keys if k.wavelength is not None and _wl_match(k.wavelength, q)]`,
evaluated left to right with the first exception propagating. -/
def filterWlGuarded (q : PyWl) : List DatasetID → Except PyErr (List DatasetID)
  | [] => .ok []
  | k :: ks =>
    if k.wavelength = .none then filterWlGuarded q ks
    else do
      let b ← wlMatch k.wavelength q
      let rest ← filterWlGuarded q ks
      pure (if b then k :: rest else rest)

/-- One equality-narrowing stage of `get_keys_by_datasetid`: when the
corresponding query field is set, keep the stored keys whose field is set and
equal (`getattr(k, key) is not None and getattr(k, key) == getattr(did, key)`);
when the query field is `None` the stage is skipped. -/
def stageEq {γ : Type} [BEq γ] (field : DatasetID → Option γ) (q : Option γ)
    (keys : List DatasetID) : List DatasetID :=
  match q with
  | Option.none => keys
  | some x => keys.filter (fun k => (field k).isSome && field k == some x)

/-- Embedding of `DatasetDict.get_keys_by_datasetid(did)`: sequentially narrow
the stored keys on each non-`None` field of `did`, in the `DATASET_KEYS`
order `name, wavelength, resolution, polarization, calibration`; the
wavelength stage uses `_wl_match(stored, query)` (guarded by
`is not None`) and may raise, the other stages are the equality stage
`stageEq`. -/
def getKeysByDatasetid (R : DDict) (did : DatasetID) : Except PyErr (List DatasetID) := do
  let keys := stageEq DatasetID.name did.name (keysOf R)
  let keys ← if did.wavelength = .none then pure keys
             else filterWlGuarded did.wavelength keys
  pure (stageEq DatasetID.calibration did.calibration
    (stageEq DatasetID.polarization did.polarization
      (stageEq DatasetID.resolution did.resolution keys)))

/-- Embedding of `DatasetDict.get_key(key)`: for a `DatasetID` resolve through
`get_keys_by_datasetid` and require at most one match (`KeyError` on more);
for a number return the first stored key whose wavelength matches; for a
string return the first stored key with `k.name == key`.  A missing match
yields Python `None`. -/
def getKey (R : DDict) (key : PyKey) : Except PyErr (Option DatasetID) :=
  match key with
  | .did d => do
    let res ← getKeysByDatasetid R d
    match res with
    | [] => pure Option.none
    | [k] => pure (some k)
    | _ => .error (.keyError "No unique dataset matching")
  | .num n => findWlMatch n (keysOf R)
  | .str s => .ok ((keysOf R).find? (fun k => k.name == some s))

/-- Unguarded wavelength filter of `DatasetDict.get_keys`:
`[k for k in self.keys() if self._wl_match(k.wavelength, name_or_wl)]` —
unlike `get_key`, there is no `is not None` guard, so a stored key with an
unset wavelength reaches `_wl_match` and raises. -/
def filterWlUnguarded (q : PyWl) : List DatasetID → Except PyErr (List DatasetID)
  | [] => .ok []
  | k :: ks => do
    let b ← wlMatch k.wavelength q
    let rest ← filterWlUnguarded q ks
    pure (if b then k :: rest else rest)

/-- Membership of an optional scalar in a list of accepted values, as Python
`x in values` after the `k.<field> is not None` guard of `get_keys`. -/
def optMemInt (x : Option Int) (vs : List Int) : Bool :=
  match x with
  | some v => vs.contains v
  | Option.none => false

/-- String variant of `optMemInt`. -/
def optMemStr (x : Option String) (vs : List String) : Bool :=
  match x with
  | some v => vs.contains v
  | Option.none => false

/-- Embedding of `DatasetDict.get_keys(name_or_wl, resolution=None,
polarization=None, calibration=None)`: primary selection by wavelength match
(numeric argument, unguarded) or by name equality (string argument), a
`TypeError` otherwise; then each supplied filter keeps the keys whose field is
non-`None` and among the accepted values (scalar arguments are modelled
already normalised to one-element lists, as the source does). -/
def getKeys (R : DDict) (nameOrWl : PyKey)
    (resolution : Option (List Int) := Option.none)
    (polarization : Option (List String) := Option.none)
    (calibration : Option (List String) := Option.none) :
    Except PyErr (List DatasetID) := do
  let keys ← match nameOrWl with
    | .num n => filterWlUnguarded (.num n) (keysOf R)
    | .str s => pure ((keysOf R).filter (fun k => k.name == some s))
    | .did _ => .error (.typeError "First argument must be a wavelength or name")
  let keys := match resolution with
    | Option.none => keys
    | some rs => keys.filter (fun k => optMemInt k.resolution rs)
  let keys := match polarization with
    | Option.none => keys
    | some ps => keys.filter (fun k => optMemStr k.polarization ps)
  let keys := match calibration with
    | Option.none => keys
    | some cs => keys.filter (fun k => optMemStr k.calibration cs)
  pure keys

/-- Update performed by `__setitem__` on the value dictionary before storing:
`d["name"] = key.name; d["resolution"] = key.resolution;
d["calibration"] = key.calibration; d["polarization"] = key.polarization`.
The `wavelength_range` entry is untouched. -/
def updateD (key : DatasetID) (d : MetaVal) : MetaVal :=
  { d with name := key.name, resolution := key.resolution,
           calibration := key.calibration, polarization := key.polarization }

/-- Embedding of `DatasetDict.__setitem__(key, value)` for dictionary values:
a non-`DatasetID` key is resolved through `get_key`; if unresolved, a new key
is synthesised from the string key (or the value metadata) and must carry a
name or wavelength; the value is stamped with the key fields; a
`wavelength_range` present in the value and different from the key wavelength
raises `TypeError`; finally the underlying `dict` entry is written. -/
def setItem (R : DDict) (key : PyKey) (value : MetaVal) : Except PyErr DDict := do
  let key ← match key with
    | .did k => pure k
    | _ => do
      let k? ← getKey R key
      match k? with
      | some k => pure k
      | Option.none =>
        let newName := match key with
          | .str s => some s
          | _ => value.name
        let k : DatasetID :=
          { name := newName, resolution := value.resolution,
            wavelength := value.getWl, polarization := value.polarization,
            calibration := value.calibration }
        if k.name.isNone ∧ k.wavelength = .none then
          .error (.valueError "One of name or wavelength_range info values should be set.")
        else
          pure k
  let d := updateD key value
  if d.wlPresent ∧ ¬ pyEq d.wlValue key.wavelength then
    .error (.typeError "Cant change the wavelength of a dataset")
  else
    pure (dictSet R key d)

/-- Embedding of `DatasetDict.__getitem__(item)`: resolve through `get_key`;
`None` resolution raises `KeyError`; otherwise the raw `dict` value of the
resolved key is returned. -/
def getItem (R : DDict) (item : PyKey) : Except PyErr MetaVal := do
  let k? ← getKey R item
  match k? with
  | Option.none => .error (.keyError "No dataset matching item found")
  | some k =>
    match dictGet? R k with
    | some v => pure v
    | Option.none => .error (.keyError "raw dict lookup")

/-- Python truthiness of a wavelength value (the `if ds.wavelength` test of
`Reader.get_dataset_key`): `None`, zero and empty sequences are falsy. -/
def PyWl.truthy : PyWl → Bool
  | .none => false
  | .num x => !(x.toRat == 0)
  | .tuple xs => !xs.isEmpty
  | .list xs => !xs.isEmpty

/-- Subscript `w[i]` with Python error semantics: numbers and `None` are not
subscriptable (`TypeError`), an out-of-range index raises `IndexError`. -/
def wlIndex (w : PyWl) (i : Nat) : Except PyErr PyNum :=
  match w with
  | .tuple xs =>
    match xs.get? i with
    | some n => .ok n
    | Option.none => .error (.indexError "tuple index out of range")
  | .list xs =>
    match xs.get? i with
    | some n => .ok n
    | Option.none => .error (.indexError "list index out of range")
  | _ => .error (.typeError "object is not subscriptable")

/-- Numeric-branch candidate filter of `Reader.get_dataset_key`:
`[ds for ds in keys if ds.wavelength and (ds.wavelength[0] <= key <= ds.wavelength[2])]`,
with Python chained-comparison short circuit (the `[2]` subscript is only
evaluated when `ds.wavelength[0] <= key` holds). -/
def gdkNumFilter (q : PyNum) : List DatasetID → Except PyErr (List DatasetID)
  | [] => .ok []
  | ds :: rest =>
    if !ds.wavelength.truthy then gdkNumFilter q rest
    else do
      let w0 ← wlIndex ds.wavelength 0
      let keep ←
        if w0.leb q then do
          let w2 ← wlIndex ds.wavelength 2
          pure (q.leb w2)
        else
          pure false
      let tail ← gdkNumFilter q rest
      pure (if keep then ds :: tail else tail)

/-- Sort keys `abs(ch.wavelength[1] - key)` of the numeric branch, computed
for every candidate up front as Python `sorted(key=...)` does. -/
def gdkSortPairs (q : PyNum) (ds : List DatasetID) :
    Except PyErr (List (Rat × DatasetID)) :=
  mapME (fun d => do
    let c ← wlIndex d.wavelength 1
    pure (|c.toRat - q.toRat|, d)) ds

/-- Comparison on (sort-key, candidate) pairs used to model the stable Python
`sorted` of the numeric branch. -/
def distLE (a b : Rat × DatasetID) : Prop := a.1 ≤ b.1

instance : DecidableRel distLE := fun a b => inferInstanceAs (Decidable (a.1 ≤ b.1))

instance : IsTotal (Rat × DatasetID) distLE := ⟨fun a b => le_total a.1 b.1⟩

instance : IsTrans (Rat × DatasetID) distLE := ⟨fun _ _ _ h1 h2 => le_trans h1 h2⟩

/-- The calibration ranking literal of `Reader.get_dataset_key`:
`["brightness_temperature", "reflectance", "radiance", "counts"]`. -/
def calOrder : List String :=
  ["brightness_temperature", "reflectance", "radiance", "counts"]

/-- Common tail of `Reader.get_dataset_key`: substitute the default
calibration preference when none is given, then narrow by resolution,
calibration (reordered along `calOrder`; keys with calibration `None` always
survive) and polarization, raising `KeyError` when nothing is left.
Filter arguments are lists of optional values because the `DatasetID` branch
of the source overrides them with `[key.calibration]` etc., which may contain
`None`; Python `in` then compares with `==`, where `None == None` holds. -/
def gdkCommonFilter (datasets : List DatasetID)
    (calibration : Option (List (Option String)))
    (resolution : Option (List (Option Int)))
    (polarization : Option (List (Option String))) : Except PyErr (List DatasetID) :=
  let calibration := match calibration with
    | Option.none => some [some "brightness_temperature", some "reflectance"]
    | some cs => some cs
  let datasets := match resolution with
    | Option.none => datasets
    | some rs => datasets.filter (fun d => rs.contains d.resolution)
  let datasets := match calibration with
    | Option.none => datasets
    | some cs =>
      let cal := calOrder.filter (fun x => cs.contains (some x))
      datasets.filter (fun d => d.calibration.isNone || optMemStr d.calibration cal)
  let datasets := match polarization with
    | Option.none => datasets
    | some ps => datasets.filter (fun d => ps.contains d.polarization)
  if datasets.isEmpty then .error (.keyError "Cant find any projectable matching")
  else .ok datasets

/-- Numeric and name branches of `Reader.get_dataset_key` (with
`aslist=True`): the numeric branch keeps the keys whose wavelength interval
contains the query, sorts them stably by distance of the wavelength centre to
the query, and raises `KeyError` when none qualify; the name branch keeps the
keys with equal name.  Both end in the common filter. -/
def gdkBase (R : DDict) (key : PyKey)
    (calibration : Option (List (Option String)))
    (resolution : Option (List (Option Int)))
    (polarization : Option (List (Option String))) : Except PyErr (List DatasetID) :=
  match key with
  | .num q => do
    let c ← gdkNumFilter q (keysOf R)
    let pairs ← gdkSortPairs q c
    let datasets := (List.insertionSort distLE pairs).map (·.2)
    if datasets.isEmpty then .error (.keyError "Cant find any projectable at wavelength")
    else gdkCommonFilter datasets calibration resolution polarization
  | .str s =>
    let datasets := (keysOf R).filter (fun k => k.name == some s)
    if datasets.isEmpty then .error (.keyError "Cant find any projectable called")
    else gdkCommonFilter datasets calibration resolution polarization
  | .did _ => .error (.keyError "unreachable")

/-- Embedding of `Reader.get_dataset_key(key, ..., aslist=True)`: a
`DatasetID` key recurses on its name if set, else on its wavelength (a tuple
wavelength falls into the name-equality branch, where a tuple equals no name,
so the `called` `KeyError` is raised), and overrides each supplied filter with
the corresponding singleton from the `DatasetID`; numbers and strings go to
`gdkBase` directly. -/
def getDatasetKeyList (R : DDict) (key : PyKey)
    (calibration : Option (List (Option String)) := Option.none)
    (resolution : Option (List (Option Int)) := Option.none)
    (polarization : Option (List (Option String)) := Option.none) :
    Except PyErr (List DatasetID) :=
  match key with
  | .did k => do
    let datasets ←
      match k.name with
      | some s => gdkBase R (.str s) Option.none Option.none Option.none
      | Option.none =>
        match k.wavelength with
        | .num n => gdkBase R (.num n) Option.none Option.none Option.none
        | .none => .error (.keyError "Cant find any projectable")
        | _ => .error (.keyError "Cant find any projectable called")
    let calibration := match calibration with
      | Option.none => Option.none
      | some _ => some [k.calibration]
    let resolution := match resolution with
      | Option.none => Option.none
      | some _ => some [k.resolution]
    let polarization := match polarization with
      | Option.none => Option.none
      | some _ => some [k.polarization]
    gdkCommonFilter datasets calibration resolution polarization
  | _ => gdkBase R key calibration resolution polarization

/-- Embedding of `Reader.get_dataset_key` with `aslist=False` (the default):
`datasets[0]` of the list version.  The empty case cannot occur because the
common filter raises first. -/
def getDatasetKey (R : DDict) (key : PyKey)
    (calibration : Option (List (Option String)) := Option.none)
    (resolution : Option (List (Option Int)) := Option.none)
    (polarization : Option (List (Option String)) := Option.none) :
    Except PyErr DatasetID := do
  let ds ← getDatasetKeyList R key calibration resolution polarization
  match ds with
  | d :: _ => pure d
  | [] => .error (.indexError "list index out of range")

/-- A per-file reader handle as seen by the granule filter: its cached
`start_time` and `end_time` (datetimes modelled as integers, a total order
being all the filter uses). -/
structure Granule where
  start_time : Int
  end_time : Int
deriving DecidableEq, Repr

/-- Time filter of `ConfigBasedReader._get_swathsegment`: keep everything when
no `start_time` is configured; with only a `start_time`, keep the granules
whose coverage contains it; with a full interval, keep a granule when its
start or its end lies within the interval (inclusive bounds). -/
def keepGranule (startT endT : Option Int) (g : Granule) : Bool :=
  match startT with
  | Option.none => true
  | some s =>
    match endT with
    | Option.none => decide (g.start_time ≤ s ∧ s ≤ g.end_time)
    | some e =>
      decide ((s ≤ g.start_time ∧ g.start_time ≤ e) ∨ (s ≤ g.end_time ∧ g.end_time ≤ e))

/-- Ordering by granule start time used by the final
`sorted(segment_readers, key=lambda x: x.start_time)`. -/
def granLE (a b : Granule) : Prop := a.start_time ≤ b.start_time

instance : DecidableRel granLE := fun a b => inferInstanceAs (Decidable (a.start_time ≤ b.start_time))

instance : IsTotal Granule granLE := ⟨fun a b => le_total a.start_time b.start_time⟩

instance : IsTrans Granule granLE := ⟨fun _ _ _ h1 h2 => le_trans h1 h2⟩

/-- Embedding of `ConfigBasedReader._get_swathsegment(file_readers)` in its
time-filtering modes (`self.area is None`; the geographic mode delegates to
the external trollsched polygon library).  The loop keeps the granules
passing `keepGranule` in their original order; the final Python `sorted` (a
stable sort by start time) is modelled by the stable insertion sort. -/
def getSwathSegment (startT endT : Option Int) (grans : List Granule) : List Granule :=
  List.insertionSort granLE (grans.filter (keepGranule startT endT))

/-- A per-granule native array for one item: one- or two-dimensional. -/
inductive NArr where
  | one (xs : List Rat)
  | two (rows : List (List Rat))
deriving DecidableEq, Repr

/-- Modelled from the spec: `GenericFileReader.get_shape(item)` is abstract in
this file set; per the spec each granule reports its native array shape for
the requested item. -/
def NArr.shape : NArr → List Nat
  | .one xs => [xs.length]
  | .two rows => [rows.length, (rows.headD []).length]

/-- Modelled from the spec: the per-granule swath write
(`file_reader.get_swath_data(item, data_out=..., mask_out=...)`, whose
implementations are outside this file set) copies the granule's native
two-dimensional array into its row-slice of the output buffer; trailing
dimensions must agree across all granules — a disagreement is surfaced as a
fatal shape-mismatch error, not coerced. -/
def writeSlice2 (numCols : Nat) (g : NArr) : Except PyErr (List (List Rat)) :=
  match g with
  | .two rows =>
    if rows.all (fun r => r.length == numCols) then .ok rows
    else .error (.valueError "could not broadcast input array")
  | .one _ => .error (.valueError "could not broadcast input array")

/-- Modelled from the spec: the one-dimensional counterpart of `writeSlice2` —
each granule's native one-dimensional data fills its slice of the flat output
buffer; a granule of a different dimensionality is a shape mismatch. -/
def writeSlice1 (g : NArr) : Except PyErr (List Rat) :=
  match g with
  | .one xs => .ok xs
  | .two _ => .error (.valueError "could not broadcast input array")

/-- Embedding of `MultiFileReader.get_swath_data(item)` (in-memory branch,
`filename=None`): the output buffer has `sum` of the granule leading
dimensions as row count; it is flat when the first granule is
one-dimensional, otherwise its column count is the first granule's trailing
dimension; each granule then writes into its row-slice in order.  The masked
array wrapper and dtype handling are value-level and out of scope of the
shape contract. -/
def getSwathData (granules : List NArr) : Except PyErr NArr :=
  match granules with
  | [] => .error (.indexError "list index out of range")
  | g0 :: _ =>
    if g0.shape.length < 2 then do
      let parts ← mapME writeSlice1 granules
      pure (.one parts.flatten)
    else do
      let numCols := g0.shape.getLastD 0
      let parts ← mapME (writeSlice2 numCols) granules
      pure (.two parts.flatten)

/-- A metadata value returned by a granule's `fr[item]`: a scalar or a
(nested) array. -/
inductive MD where
  | scalar (q : Rat)
  | arr (xs : List MD)

/-- Element conversion of `np.concatenate`: an array contributes its leading
slices; a zero-dimensional (scalar) value cannot be concatenated. -/
def mdToList (v : MD) : Except PyErr (List MD) :=
  match v with
  | .arr xs => .ok xs
  | .scalar _ => .error (.valueError "zero-dimensional arrays cannot be concatenated")

/-- Embedding of `np.concatenate(values, axis=0)` for metadata values:
requires a nonempty sequence of arrays and joins them along the leading
axis; scalars cannot be concatenated. -/
def npConcatenate (vals : List MD) : Except PyErr MD :=
  if vals.isEmpty then .error (.valueError "need at least one array to concatenate")
  else do
    let lists ← mapME mdToList vals
    pure (.arr lists.flatten)

/-- The four accepted metadata join policies of `MultiFileReader.load_metadata`. -/
def joinMethods : List String := ["append", "extend_granule", "append_granule", "first"]

/-- Message of the configuration error for an unknown join policy. -/
def unknownJoinMsg : String := "Unknown metadata join_method"

/-- Embedding of `MultiFileReader.load_metadata(item, join_method, axis=0)`
over the granule values `fr[item]` (the `axis` argument is modelled at its
default `0`): an unknown policy is rejected up front; `extend_granule` and
`append` concatenate the granule values; `append_granule` wraps each value as
a one-element array first; `first` returns the first granule's value. -/
def loadMetadata (frs : List MD) (joinMethod : String) : Except PyErr MD :=
  if ¬ joinMethods.contains joinMethod then
    .error (.valueError unknownJoinMsg)
  else if joinMethod == "extend_granule" then npConcatenate frs
  else if joinMethod == "append_granule" then npConcatenate (frs.map (fun v => .arr [v]))
  else if joinMethod == "append" then npConcatenate frs
  else
    match frs with
    | v :: _ => .ok v
    | [] => .error (.indexError "list index out of range")

/-- A datetime for the discovery filter of `ReaderFinder.get_filenames`,
as a (date, time-of-day) pair ordered lexicographically; `datetime.combine`,
`.date()`, `.time()` and `timedelta(days=1)` act componentwise on it. -/
structure DT where
  date : Int
  time : Int
deriving DecidableEq, Repr

/-- Lexicographic `<=` on datetimes. -/
def DT.leb (a b : DT) : Bool :=
  decide (a.date < b.date ∨ (a.date = b.date ∧ a.time ≤ b.time))

/-- Lexicographic `<` on datetimes. -/
def DT.ltb (a b : DT) : Bool :=
  decide (a.date < b.date ∨ (a.date = b.date ∧ a.time < b.time))

/-- Python 2 `<=` with a possibly-`None` left operand (`None` is below every
datetime). -/
def optDTle : Option DT → Option DT → Bool
  | Option.none, _ => true
  | some _, Option.none => false
  | some a, some b => a.leb b

/-- Metadata parsed from one globbed filename (`parser.parse`), or all-empty
when parsing failed; only the keys `get_filenames` reads are modelled. -/
structure FileMeta where
  start_time : Option DT := Option.none
  end_time : Option DT := Option.none
  nominal_time : Option DT := Option.none
deriving DecidableEq, Repr

/-- The `datetime(1950, 1, 1)` default for a missing `end_time`, in days
before the 1970 epoch. -/
def dt1950 : DT := ⟨-7305, 0⟩

/-- Per-file decision of `get_filenames`: first the midnight-rollover fix
(when an `end_time` is present and precedes the `start_time`, the end is
recombined from the start date and end time-of-day, advanced one day if the
end time-of-day is still earlier), then the interval test (reader start/end
around the file's start or end) or, without a reader end time, the
containment test of the reader start time. -/
def fileKeep (readerStart : DT) (readerEnd : Option DT) (md0 : FileMeta) :
    Except PyErr Bool := do
  let md ←
    match md0.end_time with
    | Option.none => pure md0
    | some en => do
      let st ←
        match md0.start_time with
        | some s => Except.ok s
        | Option.none => Except.error (.keyError "start_time")
      if DT.ltb en st then
        let mdate := st.date
        let mtime := en.time
        let mdate := if mtime < st.time then mdate + 1 else mdate
        pure { md0 with end_time := some (DT.mk mdate mtime) }
      else
        pure md0
  let metaStart : Option DT :=
    match md.start_time with
    | some s => some s
    | Option.none => md.nominal_time
  let metaEnd : DT := md.end_time.getD dt1950
  match readerEnd with
  | some re =>
    pure ((optDTle (some readerStart) metaStart && optDTle metaStart (some re)) ||
      (readerStart.leb metaEnd && metaEnd.leb re))
  | Option.none =>
    pure ((md.end_time.isSome && optDTle metaStart (some readerStart) &&
      readerStart.leb metaEnd) || (metaStart == some readerStart))

/-- Ordering used by the final `sorted(filenames)`. -/
def strLE (a b : String) : Prop := a ≤ b

instance : DecidableRel strLE := fun a b => inferInstanceAs (Decidable (a ≤ b))

/-- Embedding of `ReaderFinder.get_filenames(reader_info, base_dir)`: the glob
layer (trollsift patterns, `glob.iglob`, `base_dir` joining) is external and
supplied as the per-pattern list of `(filename, parsed metadata)` results; a
missing reader `start_time` raises `ValueError` before any pattern is
consulted; otherwise every globbed file is kept or dropped by `fileKeep` and
the kept names are returned sorted. -/
def getFilenames (readerStart readerEnd : Option DT)
    (patterns : List (List (String × FileMeta))) : Except PyErr (List String) := do
  match readerStart with
  | Option.none =>
    .error (.valueError "start_time keyword required with sensor and reader keyword arguments")
  | some rs => do
    let names ← patterns.foldlM (fun (acc : List String) globbed =>
      globbed.foldlM (fun (acc : List String) fnmd => do
        let keep ← fileKeep rs readerEnd fnmd.2
        pure (if keep then acc ++ [fnmd.1] else acc)) acc) []
    pure (List.insertionSort strLE names)

end Satpy

namespace Satpy

/-- C1 counterexample helper: a concrete length-3 tuple wavelength. -/
def wlTupleA : PyWl := .tuple [.float 1, .float 2, .float 3]

/-- C1 counterexample helper: another, unequal, length-3 tuple wavelength. -/
def wlTupleB : PyWl := .tuple [.float 4, .float 5, .float 6]

/-- C1 (counterexample): for the two unequal length-3 tuple wavelengths
`(1,2,3)` and `(4,5,6)`, `DatasetDict._wl_match` returns the boolean `False`
instead of raising a `ValueError`: the `type(a) == type(b)` branch fires
first, so the ambiguous-comparison error is never reached. -/
theorem wl_match_equal_type_tuples_no_error :
    wlMatch wlTupleA wlTupleB = .ok false := by
  rfl

/-- C1 (amended): whenever both wavelength operands are tuples — in particular
two length-3 interval tuples with unequal values — `DatasetDict._wl_match`
returns the boolean result of Python equality `a == b` (`False` for unequal
tuples) rather than raising; the `ValueError` branch is reachable only when
the two operands have different runtime types and neither is a length-3
list or tuple. -/
theorem wl_match_tuple_tuple_returns_eq (xs ys : List PyNum) :
    wlMatch (.tuple xs) (.tuple ys) = .ok (pyEq (.tuple xs) (.tuple ys)) := by
  simp [wlMatch, PyWl.typeOf]

end Satpy

namespace Satpy

/-- Granule (10,20) of the spec example. -/
def granA : Granule := ⟨10, 20⟩

/-- Granule (15,25) of the spec example. -/
def granB : Granule := ⟨15, 25⟩

/-- Granule (30,40) of the spec example. -/
def granC : Granule := ⟨30, 40⟩

/-- C3: in time-interval mode (both `start_time` and `end_time` configured,
no area filter), `_get_swathsegment` keeps a granule iff its start or its end
lies within the interval (inclusive boundaries), returns the kept granules
sorted ascending by start time, and the sort is stable: two kept granules
already ordered by start time (in particular, tied ones) keep their input
relative order in the result. -/
theorem swathsegment_interval_spec (s e : Int) (gs : List Granule) :
    (∀ g, g ∈ getSwathSegment (some s) (some e) gs ↔
      (g ∈ gs ∧ ((s ≤ g.start_time ∧ g.start_time ≤ e) ∨
        (s ≤ g.end_time ∧ g.end_time ≤ e)))) ∧
    List.Sorted granLE (getSwathSegment (some s) (some e) gs) ∧
    (∀ a b : Granule, granLE a b →
      ([a, b]).Sublist (gs.filter (keepGranule (some s) (some e))) →
      ([a, b]).Sublist (getSwathSegment (some s) (some e) gs)) := by
  refine ⟨?_, ?_, ?_⟩
  · intro g
    unfold getSwathSegment
    rw [List.mem_insertionSort, List.mem_filter]
    simp [keepGranule]
  · exact List.sorted_insertionSort granLE _
  · intro a b hab hsub
    exact List.pair_sublist_insertionSort hab hsub

/-- C3 witness: on granules (1,5), (1,7) with window [0,10], both are kept
and the tie on start time keeps the input order. -/
theorem swathsegment_interval_spec_witness :
    ((⟨1, 5⟩ : Granule) ∈ getSwathSegment (some 0) (some 10) [⟨1, 5⟩, ⟨1, 7⟩]) ∧
    ([(⟨1, 5⟩ : Granule), ⟨1, 7⟩]).Sublist (getSwathSegment (some 0) (some 10) [⟨1, 5⟩, ⟨1, 7⟩]) :=
  ⟨((swathsegment_interval_spec 0 10 [⟨1, 5⟩, ⟨1, 7⟩]).1 ⟨1, 5⟩).mpr (by decide),
   (swathsegment_interval_spec 0 10 [⟨1, 5⟩, ⟨1, 7⟩]).2.2 ⟨1, 5⟩ ⟨1, 7⟩ (by decide)
     (by decide)⟩

/-- C4 (counterexample): for granules (10,20), (15,25), (30,40) and window
(12,18), the granule filter does not return the first two granules as the
spec example asserts: granule (10,20) straddles the whole window — neither
its start nor its end lies inside [12,18] — so the code drops it. -/
theorem swathsegment_example_not_first_two :
    getSwathSegment (some 12) (some 18) [granA, granB, granC] ≠ [granA, granB] := by
  decide

/-- C4 (amended): for granules (10,20), (15,25), (30,40) and window (12,18),
the kept set is exactly the single granule (15,25): the filter keeps a
granule only when its start or its end time falls inside the window, which
excludes both (10,20) (it spans the entire window) and (30,40). -/
theorem swathsegment_example_keeps_middle :
    getSwathSegment (some 12) (some 18) [granA, granB, granC] = [granB] := by
  decide

/-- Every error produced along the mapping stage of `npConcatenate` is the
zero-dimensional concatenation error. -/
theorem mapME_mdToList_error (vals : List MD) {e : PyErr}
    (h : mapME mdToList vals = .error e) :
    e = .valueError "zero-dimensional arrays cannot be concatenated" := by
  induction vals with
  | nil => simp [mapME] at h
  | cons v vs ih =>
    cases v with
    | arr xs =>
      simp only [mapME, mdToList, bind, Except.bind] at h
      cases hm : mapME mdToList vs with
      | ok l => rw [hm] at h; simp [pure, Except.pure] at h
      | error e2 => rw [hm] at h; injection h with h; subst h; exact ih hm
    | scalar q =>
      simp only [mapME, mdToList, bind, Except.bind] at h
      injection h with h
      exact h.symm

/-- The concatenation helper never produces the unknown-join configuration
error. -/
theorem npConcatenate_ne_unknown (vals : List MD) :
    npConcatenate vals ≠ .error (.valueError unknownJoinMsg) := by
  unfold npConcatenate
  split
  · intro h
    injection h with h
    injection h with h
    exact absurd h (by decide)
  · intro h
    simp only [bind, Except.bind] at h
    cases hm : mapME mdToList vals with
    | ok l => rw [hm] at h; simp [pure, Except.pure] at h
    | error e2 =>
      rw [hm] at h
      injection h with h
      have h2 := mapME_mdToList_error vals hm
      rw [h2] at h
      injection h with h
      exact absurd h (by decide)

/-- C8: `MultiFileReader.load_metadata` raises its unknown-join configuration
error exactly when the join policy is not one of `append`, `extend_granule`,
`append_granule`, `first`; with any of those four policies, no granule value
list makes the call raise this configuration error. -/
theorem load_metadata_unknown_join_iff (frs : List MD) (j : String) :
    loadMetadata frs j = .error (.valueError unknownJoinMsg) ↔ j ∉ joinMethods := by
  by_cases hj : j ∈ joinMethods
  · refine iff_of_false ?_ (by simp [hj])
    simp only [joinMethods, List.mem_cons, List.not_mem_nil, or_false] at hj
    rcases hj with rfl | rfl | rfl | rfl
    · rw [(rfl : loadMetadata frs "append" = npConcatenate frs)]
      exact npConcatenate_ne_unknown frs
    · rw [(rfl : loadMetadata frs "extend_granule" = npConcatenate frs)]
      exact npConcatenate_ne_unknown frs
    · rw [(rfl : loadMetadata frs "append_granule" =
        npConcatenate (frs.map (fun v => .arr [v])))]
      exact npConcatenate_ne_unknown _
    · cases frs with
      | nil => intro h; injection h with h; injection h
      | cons v vs => intro h; injection h
  · refine iff_of_true ?_ hj
    unfold loadMetadata
    rw [if_pos]
    simpa using hj

/-- C9: discovery by time window fails up front with the configuration
`ValueError` when the reader configuration carries no start time: for every
end time and every glob environment, `get_filenames` returns the error, never
silently proceeding — the result does not even depend on the patterns. -/
theorem get_filenames_requires_start_time (readerEnd : Option DT)
    (patterns : List (List (String × FileMeta))) :
    getFilenames Option.none readerEnd patterns =
      .error (.valueError "start_time keyword required with sensor and reader keyword arguments") := rfl

/-- When every row of every granule has the first granule's width, every
per-granule write succeeds and yields exactly the granule row blocks. -/
theorem mapME_writeSlice2_ok (c : Nat) (gss : List (List (List Rat)))
    (h : ∀ g ∈ gss, ∀ r ∈ g, r.length = c) :
    mapME (writeSlice2 c) (gss.map NArr.two) = .ok gss := by
  induction gss with
  | nil => rfl
  | cons g gs ih =>
    have hg : (g.all fun r => r.length == c) = true := by
      simp only [List.all_eq_true, beq_iff_eq]
      intro r hr
      exact h g (List.mem_cons_self g gs) r hr
    rw [List.map_cons]
    simp only [mapME, writeSlice2, hg, if_pos]
    rw [ih (fun g2 hg2 r hr => h g2 (List.mem_cons_of_mem g hg2) r hr)]
    rfl

/-- A granule holding a row whose width differs from the first granule's
makes the write sequence fail with the shape-mismatch error. -/
theorem mapME_writeSlice2_error (c : Nat) (gss : List (List (List Rat)))
    (h : ∃ g ∈ gss, ∃ r ∈ g, r.length ≠ c) :
    mapME (writeSlice2 c) (gss.map NArr.two) =
      .error (.valueError "could not broadcast input array") := by
  induction gss with
  | nil => simp at h
  | cons g gs ih =>
    by_cases hg : (g.all fun r => r.length == c) = true
    · have htail : ∃ g2 ∈ gs, ∃ r ∈ g2, r.length ≠ c := by
        rcases h with ⟨g2, hmem, r, hr, hlen⟩
        rcases List.mem_cons.mp hmem with rfl | h2
        · exact absurd (by simpa using List.all_eq_true.mp hg r hr) hlen
        · exact ⟨g2, h2, r, hr, hlen⟩
      rw [List.map_cons]
      simp only [mapME, writeSlice2, hg, if_pos]
      rw [ih htail]
      rfl
    · rw [List.map_cons]
      simp only [mapME, writeSlice2]
      rw [if_neg hg]
      rfl

/-- One-dimensional granules always write successfully into the flat buffer. -/
theorem mapME_writeSlice1_ok (xss : List (List Rat)) :
    mapME writeSlice1 (xss.map NArr.one) = .ok xss := by
  induction xss with
  | nil => rfl
  | cons x xs ih =>
    rw [List.map_cons]
    simp only [mapME, writeSlice1]
    rw [ih]
    rfl

/-- C7: shape contract of `MultiFileReader.get_swath_data`: two-dimensional
granules whose rows all have the first granule's trailing dimension are
stacked — the result holds exactly the concatenated rows, so its leading
dimension is the sum of the granule leading dimensions and its trailing
dimension the common one; if any granule has a row of a different width, the
call fails with the shape-mismatch error instead of coercing; and
one-dimensional granules always concatenate to the flat sum. -/
theorem get_swath_data_shape_contract :
    (∀ (g0 : List (List Rat)) (rest : List (List (List Rat))),
      (∀ g ∈ g0 :: rest, ∀ r ∈ g, r.length = (g0.headD []).length) →
      getSwathData ((g0 :: rest).map NArr.two) = .ok (.two ((g0 :: rest).flatten)) ∧
        ((g0 :: rest).flatten).length = ((g0 :: rest).map List.length).sum) ∧
    (∀ (g0 : List (List Rat)) (rest : List (List (List Rat))),
      (∃ g ∈ g0 :: rest, ∃ r ∈ g, r.length ≠ (g0.headD []).length) →
      getSwathData ((g0 :: rest).map NArr.two) =
        .error (.valueError "could not broadcast input array")) ∧
    (∀ (x0 : List Rat) (rest : List (List Rat)),
      getSwathData ((x0 :: rest).map NArr.one) = .ok (.one ((x0 :: rest).flatten)) ∧
        ((x0 :: rest).flatten).length = ((x0 :: rest).map List.length).sum) := by
  refine ⟨?_, ?_, ?_⟩
  · intro g0 rest h
    constructor
    · rw [List.map_cons]
      simp only [getSwathData, NArr.shape]
      rw [if_neg (by simp)]
      rw [show (([g0.length, (g0.headD []).length]).getLastD 0) = (g0.headD []).length from rfl]
      rw [show (NArr.two g0 :: rest.map NArr.two) = ((g0 :: rest).map NArr.two) from by
        rw [List.map_cons]]
      rw [mapME_writeSlice2_ok _ _ h]
      rfl
    · exact List.length_flatten _
  · intro g0 rest h
    rw [List.map_cons]
    simp only [getSwathData, NArr.shape]
    rw [if_neg (by simp)]
    rw [show (([g0.length, (g0.headD []).length]).getLastD 0) = (g0.headD []).length from rfl]
    rw [show (NArr.two g0 :: rest.map NArr.two) = ((g0 :: rest).map NArr.two) from by
      rw [List.map_cons]]
    rw [mapME_writeSlice2_error _ _ h]
    rfl
  · intro x0 rest
    constructor
    · rw [List.map_cons]
      simp only [getSwathData, NArr.shape]
      rw [if_pos (by simp)]
      rw [show (NArr.one x0 :: rest.map NArr.one) = ((x0 :: rest).map NArr.one) from by
        rw [List.map_cons]]
      rw [mapME_writeSlice1_ok]
      rfl
    · exact List.length_flatten _

/-- C7 witness: granules of shapes (3,5) and (2,5) assemble into the 5-row
stack of width 5, and granules of shapes (3,5) and (2,6) raise the
shape-mismatch error. -/
theorem get_swath_data_shape_contract_witness :
    (getSwathData [.two (List.replicate 3 (List.replicate 5 (0 : Rat))),
        .two (List.replicate 2 (List.replicate 5 (0 : Rat)))] =
      .ok (.two ((List.replicate 3 (List.replicate 5 (0 : Rat)) ::
        [List.replicate 2 (List.replicate 5 (0 : Rat))]).flatten)) ∧
      ((List.replicate 3 (List.replicate 5 (0 : Rat)) ::
        [List.replicate 2 (List.replicate 5 (0 : Rat))]).flatten).length =
        ((List.replicate 3 (List.replicate 5 (0 : Rat)) ::
          [List.replicate 2 (List.replicate 5 (0 : Rat))]).map List.length).sum) ∧
    getSwathData [.two (List.replicate 3 (List.replicate 5 (0 : Rat))),
        .two (List.replicate 2 (List.replicate 6 (0 : Rat)))] =
      .error (.valueError "could not broadcast input array") :=
  ⟨get_swath_data_shape_contract.1 (List.replicate 3 (List.replicate 5 (0 : Rat)))
      [List.replicate 2 (List.replicate 5 (0 : Rat))] (by decide),
   get_swath_data_shape_contract.2.1 (List.replicate 3 (List.replicate 5 (0 : Rat)))
      [List.replicate 2 (List.replicate 6 (0 : Rat))] (by decide)⟩

/-- The only exception `_wl_match` ever raises is its `ValueError`. -/
theorem wlMatch_ok_or_valueError (a b : PyWl) :
    (∃ v, wlMatch a b = .ok v) ∨ wlMatch a b = .error (.valueError wlMatchErrMsg) := by
  unfold wlMatch
  split
  · exact Or.inl ⟨_, rfl⟩
  · split
    · exact Or.inl ⟨_, rfl⟩
    · split
      · exact Or.inl ⟨_, rfl⟩
      · exact Or.inr rfl

/-- Matching an unset wavelength against a number raises the `ValueError`. -/
theorem wlMatch_none_num (n : PyNum) :
    wlMatch .none (.num n) = .error (.valueError wlMatchErrMsg) := by
  cases n <;> rfl

/-- With a numeric query, the unguarded wavelength comprehension of
`get_keys` raises the `_wl_match` `ValueError` as soon as some listed key has
an unset wavelength (an earlier incomparable key raises the same error). -/
theorem filterWlUnguarded_none_error (n : PyNum) (ks : List DatasetID)
    (h : ∃ k ∈ ks, k.wavelength = .none) :
    filterWlUnguarded (.num n) ks = .error (.valueError wlMatchErrMsg) := by
  induction ks with
  | nil => simp at h
  | cons k0 rest ih =>
    simp only [filterWlUnguarded]
    rcases h with ⟨k2, hmem, hwl⟩
    rcases List.mem_cons.mp hmem with rfl | h2
    · rw [hwl, wlMatch_none_num]
      rfl
    · rcases wlMatch_ok_or_valueError k0.wavelength (.num n) with ⟨v, hv⟩ | hv
      · rw [hv]
        simp only [bind, Except.bind]
        rw [ih ⟨k2, h2, hwl⟩]
      · rw [hv]
        rfl

/-- C10: wavelength comparison across unequal non-interval types is rejected:
`_wl_match` raises its `ValueError` whenever the operand types differ and
neither operand is a length-3 list/tuple (e.g. an `int` versus a `float`
scalar, or `None` versus a number); consequently `DatasetDict.get_keys` with
a numeric first argument raises that `ValueError` whenever any stored key has
an unset wavelength, rather than filtering such a key out. -/
theorem wl_match_type_mismatch_safety :
    (∀ a b : PyWl, a.typeOf ≠ b.typeOf → a.isLen3Seq = false → b.isLen3Seq = false →
      wlMatch a b = .error (.valueError wlMatchErrMsg)) ∧
    (∀ (R : DDict) (n : PyNum) (res : Option (List Int))
      (pol cal : Option (List String)),
      (∃ k ∈ keysOf R, k.wavelength = .none) →
      getKeys R (.num n) res pol cal = .error (.valueError wlMatchErrMsg)) := by
  constructor
  · intro a b hty h3a h3b
    unfold wlMatch
    rw [if_neg (by simpa using hty), if_neg (by simp [h3a]), if_neg (by simp [h3b])]
  · intro R n res pol cal h
    simp only [getKeys]
    rw [filterWlUnguarded_none_error n (keysOf R) h]
    rfl

/-- C10 witness: an `int 1` against a `float 1.0` raises the `ValueError`
although the two are numerically equal, and `get_keys` with query 1.5 on a
registry holding one name-only key (wavelength unset) raises it as well. -/
theorem wl_match_type_mismatch_safety_witness :
    wlMatch (.num (.int 1)) (.num (.float 1)) = .error (.valueError wlMatchErrMsg) ∧
    getKeys [({ name := some "x" }, {})] (.num (.float (3 / 2))) =
      .error (.valueError wlMatchErrMsg) :=
  ⟨wl_match_type_mismatch_safety.1 (.num (.int 1)) (.num (.float 1))
      (by decide) (by decide) (by decide),
   wl_match_type_mismatch_safety.2 [({ name := some "x" }, {})] (.float (3 / 2))
      Option.none Option.none Option.none ⟨{ name := some "x" }, by decide, rfl⟩⟩

/-- Python `==` on numeric sequences is reflexive. -/
theorem numListEq_refl (xs : List PyNum) : numListEq xs xs = true := by
  induction xs with
  | nil => rfl
  | cons x xs ih => simp [numListEq, PyNum.eqb, ih]

/-- Python `==` on wavelength values is reflexive. -/
theorem pyEq_refl (w : PyWl) : pyEq w w = true := by
  cases w <;> simp [pyEq, PyNum.eqb, numListEq_refl]

/-- Python `==` on `DatasetID` keys is reflexive. -/
theorem didEq_refl (k : DatasetID) : didEq k k = true := by
  simp [didEq, pyEq_refl]

/-- Matching a wavelength value against itself succeeds (same runtime type,
reflexive equality). -/
theorem wlMatch_self (w : PyWl) : wlMatch w w = .ok true := by
  simp [wlMatch, pyEq_refl]

/-- Two keys with different names are never `dict`-equal. -/
theorem didEq_false_of_name_ne {a b : DatasetID} (h : a.name ≠ b.name) :
    didEq a b = false := by
  simp [didEq, h]

/-- Inserting under a key `dict`-equal to no stored key appends the new entry
at the end, in iteration order. -/
theorem dictSet_fresh (R : DDict) (k : DatasetID) (v : MetaVal)
    (h : ∀ p ∈ R, didEq p.1 k = false) :
    dictSet R k v = R ++ [(k, v)] := by
  induction R with
  | nil => rfl
  | cons p rest ih =>
    simp only [dictSet]
    rw [if_neg (by simp [h p (List.mem_cons_self p rest)])]
    rw [ih (fun p2 hp => h p2 (List.mem_cons_of_mem p hp))]
    rfl

/-- Raw dict insertion never drops a stored key. -/
theorem keysOf_dictSet_super (R : DDict) (k : DatasetID) (v : MetaVal) :
    ∀ k2 ∈ keysOf R, k2 ∈ keysOf (dictSet R k v) := by
  induction R with
  | nil => intro k2 h; simp [keysOf] at h
  | cons p rest ih =>
    intro k2 h
    simp only [keysOf, List.map_cons, List.mem_cons] at h
    simp only [dictSet]
    by_cases hp : didEq p.1 k = true
    · rw [if_pos hp]
      rcases h with h | h
      · simp [keysOf, h]
      · simp only [keysOf, List.map_cons, List.mem_cons]
        exact Or.inr (by simpa [keysOf] using h)
    · rw [if_neg hp]
      rcases h with h | h
      · simp [keysOf, h]
      · simp only [keysOf, List.map_cons, List.mem_cons]
        exact Or.inr (by simpa [keysOf] using ih k2 (by simpa [keysOf] using h))

/-- A successful `__setitem__` is a raw dict insertion with the resolved key
and the stamped value. -/
theorem setItem_ok_shape (R : DDict) (key : PyKey) (v : MetaVal) (R2 : DDict)
    (h : setItem R key v = .ok R2) : ∃ k, R2 = dictSet R k (updateD k v) := by
  cases key with
  | did k =>
    simp only [setItem, bind, Except.bind, pure, Except.pure] at h
    split at h
    · exact absurd h (by simp)
    · exact ⟨k, by injection h with h; rw [h]⟩
  | num n =>
    cases hg : getKey R (.num n) with
    | error e =>
      simp only [setItem, hg, bind, Except.bind] at h
      exact absurd h (by simp)
    | ok k? =>
      cases k? with
      | some k =>
        simp only [setItem, hg, bind, Except.bind, pure, Except.pure] at h
        split at h
        · exact absurd h (by simp)
        · exact ⟨k, by injection h with h; rw [h]⟩
      | none =>
        simp only [setItem, hg, bind, Except.bind, pure, Except.pure] at h
        split at h
        · exact absurd h (by simp)
        · split at h
          · exact absurd h (by simp)
          · exact ⟨_, by injection h with h; rw [h]⟩
  | str st =>
    cases hg : getKey R (.str st) with
    | error e =>
      simp only [setItem, hg, bind, Except.bind] at h
      exact absurd h (by simp)
    | ok k? =>
      cases k? with
      | some k =>
        simp only [setItem, hg, bind, Except.bind, pure, Except.pure] at h
        split at h
        · exact absurd h (by simp)
        · exact ⟨k, by injection h with h; rw [h]⟩
      | none =>
        simp only [setItem, hg, bind, Except.bind, pure, Except.pure] at h
        split at h
        · exact absurd h (by simp)
        · split at h
          · exact absurd h (by simp)
          · exact ⟨_, by injection h with h; rw [h]⟩

/-- C6: a value registered under a fresh name-only key pins the wavelength:
a second registration under the same name whose metadata carries a different
`wavelength_range` raises the wavelength-conflict `TypeError` on the second
`__setitem__`; and a successful insertion never removes a registered key, so
the wavelength recorded in a stored key is never changed by insertion. -/
theorem setitem_wavelength_conflict :
    (∀ (R : DDict) (n : String) (v1 v2 : MetaVal) (R2 : DDict),
      (∀ k ∈ keysOf R, k.name ≠ some n) →
      v1.wlPresent = true → v2.wlPresent = true →
      pyEq v2.wlValue v1.wlValue = false →
      setItem R (.str n) v1 = .ok R2 →
      setItem R2 (.str n) v2 =
        .error (.typeError "Cant change the wavelength of a dataset")) ∧
    (∀ (R : DDict) (key : PyKey) (v : MetaVal) (R2 : DDict),
      setItem R key v = .ok R2 → ∀ k ∈ keysOf R, k ∈ keysOf R2) := by
  constructor
  · intro R n v1 v2 R2 hfresh hv1 hv2 hne hset
    have hgw : v1.getWl = v1.wlValue := by simp [MetaVal.getWl, hv1]
    have hfind : (keysOf R).find? (fun k => k.name == some n) = Option.none := by
      refine List.find?_eq_none.mpr ?_
      intro x hx
      simp only [beq_iff_eq]
      exact hfresh x hx
    have hg : getKey R (.str n) = .ok Option.none := by
      simp only [getKey, hfind]
    have hstep : setItem R (.str n) v1 =
        .ok (dictSet R
          (DatasetID.mk (some n) v1.getWl v1.resolution v1.polarization v1.calibration)
          (updateD (DatasetID.mk (some n) v1.getWl v1.resolution v1.polarization
            v1.calibration) v1)) := by
      simp only [setItem, hg, bind, Except.bind]
      rw [if_neg (by simp)]
      simp only [pure, Except.pure]
      rw [if_neg ?_]
      intro hcond
      exact hcond.2 (by simp only [updateD, hgw]; exact pyEq_refl v1.wlValue)
    rw [hstep] at hset
    injection hset with hset
    have hfreshdid : ∀ p ∈ R, didEq p.1
        (DatasetID.mk (some n) v1.getWl v1.resolution v1.polarization v1.calibration)
        = false := by
      intro p hp
      refine didEq_false_of_name_ne ?_
      have : p.1 ∈ keysOf R := List.mem_map_of_mem (fun q => q.1) hp
      simpa using hfresh p.1 this
    have hR2 : R2 = R ++
        [((DatasetID.mk (some n) v1.getWl v1.resolution v1.polarization v1.calibration),
          updateD (DatasetID.mk (some n) v1.getWl v1.resolution v1.polarization
            v1.calibration) v1)] := by
      rw [← hset, dictSet_fresh R _ _ hfreshdid]
    have hkeys2 : keysOf R2 = keysOf R ++
        [DatasetID.mk (some n) v1.getWl v1.resolution v1.polarization v1.calibration] := by
      rw [hR2]
      simp [keysOf]
    have hfind2 : (keysOf R2).find? (fun k => k.name == some n) =
        some (DatasetID.mk (some n) v1.getWl v1.resolution v1.polarization
          v1.calibration) := by
      rw [hkeys2, List.find?_append, hfind]
      simp
    have hg2 : getKey R2 (.str n) = .ok (some
        (DatasetID.mk (some n) v1.getWl v1.resolution v1.polarization v1.calibration)) := by
      simp only [getKey, hfind2]
    simp only [setItem, hg2, bind, Except.bind, pure, Except.pure]
    rw [if_pos ?_]
    constructor
    · simpa [updateD] using hv2
    · simp only [updateD, hgw]
      simp [hne]
  · intro R key v R2 hset k hk
    obtain ⟨k0, hshape⟩ := setItem_ok_shape R key v R2 hset
    rw [hshape]
    exact keysOf_dictSet_super R k0 (updateD k0 v) k hk

/-- First registration of the C6 witness: wavelength range (1,2,3) stored
under name `a`. -/
def v1C : MetaVal := { wlPresent := true, wlValue := .tuple [.float 1, .float 2, .float 3] }

/-- Second registration of the C6 witness: conflicting range (4,5,6). -/
def v2C : MetaVal := { wlPresent := true, wlValue := .tuple [.float 4, .float 5, .float 6] }

/-- The key the first C6 registration synthesises. -/
def k1C : DatasetID := { name := some "a", wavelength := .tuple [.float 1, .float 2, .float 3] }

/-- C6 witness: starting from the empty registry, storing wavelength range
(1,2,3) under name `a` and then re-registering name `a` with range (4,5,6)
raises the conflict `TypeError` on the second call. -/
theorem setitem_wavelength_conflict_witness :
    setItem [(k1C, updateD k1C v1C)] (.str "a") v2C =
      .error (.typeError "Cant change the wavelength of a dataset") :=
  setitem_wavelength_conflict.1 [] "a" v1C v2C [(k1C, updateD k1C v1C)]
    (by intro k hk; simp [keysOf] at hk) rfl rfl (by decide) rfl

/-- Appending a key to the input of an equality stage queried with that key's
own field value appends it to the stage output: the key passes its own
stage. -/
theorem stageEq_self_append {γ : Type} [BEq γ] [LawfulBEq γ]
    (field : DatasetID → Option γ) (A : List DatasetID) (k : DatasetID) :
    stageEq field (field k) (A ++ [k]) = stageEq field (field k) A ++ [k] := by
  cases hq : field k with
  | none => simp [stageEq, hq]
  | some x => simp [stageEq, hq, List.filter_append]

/-- The guarded wavelength comprehension distributes over list append when
both halves succeed. -/
theorem filterWlGuarded_append_ok (q : PyWl) {l1 l2 : List DatasetID}
    {a b : List DatasetID}
    (h1 : filterWlGuarded q l1 = .ok a) (h2 : filterWlGuarded q l2 = .ok b) :
    filterWlGuarded q (l1 ++ l2) = .ok (a ++ b) := by
  induction l1 generalizing a with
  | nil =>
    simp only [filterWlGuarded] at h1
    injection h1 with h1
    subst h1
    simpa using h2
  | cons k0 rest ih =>
    simp only [filterWlGuarded, List.cons_append] at h1 ⊢
    by_cases hw : k0.wavelength = .none
    · rw [if_pos hw] at h1 ⊢
      exact ih h1
    · rw [if_neg hw] at h1 ⊢
      cases hm : wlMatch k0.wavelength q with
      | error e => rw [hm] at h1; exact absurd h1 (by simp [bind, Except.bind])
      | ok bv =>
        rw [hm] at h1
        simp only [bind, Except.bind] at h1 ⊢
        cases hr : filterWlGuarded q rest with
        | error e => rw [hr] at h1; exact absurd h1 (by simp)
        | ok ar =>
          rw [hr] at h1
          rw [List.append_eq, ih hr]
          simp only [pure, Except.pure] at h1 ⊢
          injection h1 with h1
          subst h1
          cases bv <;> simp

/-- A key with a set wavelength passes the guarded wavelength stage queried
with its own wavelength. -/
theorem filterWlGuarded_self (k : DatasetID) (h : ¬ k.wavelength = .none) :
    filterWlGuarded k.wavelength [k] = .ok [k] := by
  simp only [filterWlGuarded]
  rw [if_neg h, wlMatch_self]
  rfl

/-- If nothing stored in `R` matches `k` as a `DatasetID` query, then in
`R` extended with `k` itself the query matches exactly `[k]`. -/
theorem getKeysByDatasetid_append_self (R : DDict) (k : DatasetID) (d : MetaVal)
    (hnomatch : getKeysByDatasetid R k = .ok []) :
    getKeysByDatasetid (R ++ [(k, d)]) k = .ok [k] := by
  have hkeys : keysOf (R ++ [(k, d)]) = keysOf R ++ [k] := by simp [keysOf]
  simp only [getKeysByDatasetid] at hnomatch ⊢
  rw [hkeys, stageEq_self_append]
  by_cases hw : k.wavelength = .none
  · rw [if_pos hw] at hnomatch ⊢
    simp only [bind, Except.bind, pure, Except.pure] at hnomatch ⊢
    injection hnomatch with hnomatch
    rw [stageEq_self_append, stageEq_self_append, stageEq_self_append, hnomatch]
    rfl
  · rw [if_neg hw] at hnomatch ⊢
    cases hA : filterWlGuarded k.wavelength
        (stageEq DatasetID.name k.name (keysOf R)) with
    | error e =>
      rw [hA] at hnomatch
      exact absurd hnomatch (by simp [bind, Except.bind])
    | ok m =>
      rw [hA] at hnomatch
      simp only [bind, Except.bind, pure, Except.pure] at hnomatch
      injection hnomatch with hnomatch
      rw [filterWlGuarded_append_ok k.wavelength hA (filterWlGuarded_self k hw)]
      simp only [bind, Except.bind, pure, Except.pure]
      rw [stageEq_self_append, stageEq_self_append, stageEq_self_append, hnomatch]
      rfl

/-- The raw dict lookup of a key appended behind entries `dict`-equal to
none of it finds the appended value. -/
theorem dictGet?_append_self (R : DDict) (k : DatasetID) (d : MetaVal)
    (hfresh : ∀ p ∈ R, didEq p.1 k = false) :
    dictGet? (R ++ [(k, d)]) k = some d := by
  unfold dictGet?
  rw [List.find?_append]
  rw [List.find?_eq_none.mpr ?_]
  · simp [didEq_refl]
  · intro p hp
    simp [hfresh p hp]

/-- A successful `__setitem__` under a `DatasetID` key inserts under exactly
that key. -/
theorem setItem_did_ok (R : DDict) (k : DatasetID) (v : MetaVal) (R2 : DDict)
    (h : setItem R (.did k) v = .ok R2) : R2 = dictSet R k (updateD k v) := by
  simp only [setItem, bind, Except.bind, pure, Except.pure] at h
  split at h
  · exact absurd h (by simp)
  · injection h with h; rw [h]

/-- C5 (amended): the insert/lookup round trip holds for a full Composite Key
that is not shadowed: when no stored key is `dict`-equal to `k` and no stored
key matches `k` as a `DatasetID` query, a successful assignment `R[k] = v`
makes the lookup `R[k]` return the stored value — `v` stamped with the key
fields.  (When a distinct stored key also matches `k`, the lookup raises the
ambiguity `KeyError` instead; see the counterexample.) -/
theorem setitem_getitem_roundtrip (R : DDict) (k : DatasetID) (v : MetaVal)
    (R2 : DDict)
    (_hfull : k.name.isSome ∧ ¬ k.wavelength = .none ∧ k.resolution.isSome ∧
      k.polarization.isSome ∧ k.calibration.isSome)
    (hfresh : ∀ p ∈ R, didEq p.1 k = false)
    (hnomatch : getKeysByDatasetid R k = .ok [])
    (hset : setItem R (.did k) v = .ok R2) :
    getItem R2 (.did k) = .ok (updateD k v) := by
  have hR2 : R2 = R ++ [(k, updateD k v)] := by
    rw [setItem_did_ok R k v R2 hset]
    exact dictSet_fresh R k _ hfresh
  subst hR2
  have hgkbd := getKeysByDatasetid_append_self R k (updateD k v) hnomatch
  simp only [getItem, getKey, hgkbd, bind, Except.bind, pure, Except.pure]
  rw [dictGet?_append_self R k (updateD k v) hfresh]

/-- The full key of the C5 counterexample: name `a`, wavelength interval
(1,2,3), resolution 500, polarization `H`, calibration `counts`. -/
def kFullC : DatasetID :=
  { name := some "a", wavelength := .tuple [.float 1, .float 2, .float 3],
    resolution := some 500, polarization := some "H", calibration := some "counts" }

/-- A distinct stored key that also matches `kFullC`: same fields except a
scalar wavelength 2.0, which lies inside the interval (1,2,3). -/
def kScalarC : DatasetID :=
  { name := some "a", wavelength := .num (.float 2),
    resolution := some 500, polarization := some "H", calibration := some "counts" }

/-- The registry of the C5 counterexample, holding only `kScalarC`. -/
def ddictC : DDict := [(kScalarC, {})]

/-- C5 (counterexample): on a registry already holding a different key whose
scalar wavelength lies inside `kFullC`'s interval, the assignment
`R[kFullC] = v` succeeds, but the lookup `R[kFullC]` then raises the
ambiguity `KeyError` — both stored keys match the full query — instead of
returning `v`. -/
theorem setitem_getitem_roundtrip_counterexample :
    setItem ddictC (.did kFullC) {} = .ok (ddictC ++ [(kFullC, updateD kFullC {})]) ∧
    getItem (ddictC ++ [(kFullC, updateD kFullC {})]) (.did kFullC) =
      .error (.keyError "No unique dataset matching") :=
  ⟨rfl, rfl⟩

/-- C5 witness: on the empty registry, assigning under the full key and
looking it up returns the stamped value. -/
theorem setitem_getitem_roundtrip_witness :
    getItem ([] ++ [(kFullC, updateD kFullC {})]) (.did kFullC) =
      .ok (updateD kFullC {}) :=
  setitem_getitem_roundtrip [] kFullC {} ([] ++ [(kFullC, updateD kFullC {})])
    (by decide) (by intro p hp; simp at hp) rfl rfl

/-- Interval-containment test of the numeric branch of `get_dataset_key`
for well-formed wavelengths: the key qualifies when its wavelength is a
3-tuple whose first element is at most the query and whose last element is
at least the query. -/
def wlContains (q : PyNum) (d : DatasetID) : Bool :=
  match d.wavelength with
  | .tuple [x, _, z] => x.leb q && q.leb z
  | _ => false

/-- The numeric-branch sort key `abs(ch.wavelength[1] - key)`, as a total
function (zero when the wavelength has no centre element). -/
def centerDist (d : DatasetID) (q : PyNum) : Rat :=
  match wlIndex d.wavelength 1 with
  | .ok c => |c.toRat - q.toRat|
  | .error _ => 0

/-- First stored key of the C2 counterexample: wavelength interval (1,5,9),
centre 5. -/
def kFar : DatasetID :=
  { name := some "a", wavelength := .tuple [.float 1, .float 5, .float 9] }

/-- Second stored key of the C2 counterexample: wavelength interval (2,3,4),
centre 3. -/
def kNear : DatasetID :=
  { name := some "b", wavelength := .tuple [.float 2, .float 3, .float 4] }

/-- The registry of the C2 counterexample, iteration order `kFar, kNear`. -/
def ddictWl : DDict := [(kFar, {}), (kNear, {})]

/-- C2 (counterexample): on a registry storing intervals (1,5,9) then (2,3,4)
and the numeric query 3.0, `DatasetDict.get_key` returns the (1,5,9) key —
the first containing key in iteration order — even though the (2,3,4) key
also contains the query and its centre is strictly closer; the registry
lookup does not return the closest-centre candidate. -/
theorem get_key_numeric_not_closest :
    getKey ddictWl (.num (.float 3)) = .ok (some kFar) ∧
    kNear ∈ keysOf ddictWl ∧
    wlMatch kNear.wavelength (.num (.float 3)) = .ok true ∧
    centerDist kNear (.float 3) < centerDist kFar (.float 3) := by
  refine ⟨rfl, by decide, rfl, ?_⟩
  have h1 : centerDist kNear (.float 3) = |(3 : Rat) - 3| := rfl
  have h2 : centerDist kFar (.float 3) = |(5 : Rat) - 3| := rfl
  rw [h1, h2]
  norm_num

/-- `get_key` on a number returns the first stored key whose wavelength is
set and matches, and every earlier key is either unset or a non-match. -/
theorem findWlMatch_first (q : PyNum) (ks : List DatasetID) (k : DatasetID)
    (h : findWlMatch q ks = .ok (some k)) :
    ∃ l1 l2, ks = l1 ++ k :: l2 ∧
      (∀ k2 ∈ l1, k2.wavelength = .none ∨ wlMatch k2.wavelength (.num q) = .ok false) ∧
      ¬ k.wavelength = .none ∧ wlMatch k.wavelength (.num q) = .ok true := by
  induction ks with
  | nil => exact absurd h (by simp [findWlMatch])
  | cons k0 rest ih =>
    simp only [findWlMatch] at h
    by_cases hw : k0.wavelength = .none
    · rw [if_pos hw] at h
      obtain ⟨l1, l2, he, hl1, hk⟩ := ih h
      refine ⟨k0 :: l1, l2, by rw [he]; rfl, ?_, hk⟩
      intro k2 hk2
      rcases List.mem_cons.mp hk2 with rfl | h2
      · exact Or.inl hw
      · exact hl1 k2 h2
    · rw [if_neg hw] at h
      cases hm : wlMatch k0.wavelength (.num q) with
      | error e => rw [hm] at h; exact absurd h (by simp [bind, Except.bind])
      | ok bv =>
        rw [hm] at h
        simp only [bind, Except.bind] at h
        cases bv with
        | true =>
          simp only [if_pos, pure, Except.pure] at h
          injection h with h
          injection h with h
          subst h
          exact ⟨[], rest, rfl, by simp, hw, hm⟩
        | false =>
          simp only [if_neg, pure, Except.pure] at h
          obtain ⟨l1, l2, he, hl1, hk⟩ := ih h
          refine ⟨k0 :: l1, l2, by rw [he]; rfl, ?_, hk⟩
          intro k2 hk2
          rcases List.mem_cons.mp hk2 with rfl | h2
          · exact Or.inr hm
          · exact hl1 k2 h2

/-- A positive containment test certifies the 3-tuple shape and the interval
bounds. -/
theorem wlContains_true_shape {q : PyNum} {d : DatasetID}
    (h : wlContains q d = true) :
    ∃ x y z, d.wavelength = .tuple [x, y, z] ∧ x.leb q = true ∧ q.leb z = true := by
  unfold wlContains at h
  split at h
  · rename_i x y z heq
    exact ⟨x, y, z, heq, (Bool.and_eq_true _ _).mp h |>.1,
      (Bool.and_eq_true _ _).mp h |>.2⟩
  · exact absurd h (by simp)

/-- Pointwise-successful traversal evaluates to the mapped list. -/
theorem mapME_ok_of_all {A B : Type} (f : A → Except PyErr B) (g : A → B)
    (l : List A) (h : ∀ a ∈ l, f a = .ok (g a)) : mapME f l = .ok (l.map g) := by
  induction l with
  | nil => rfl
  | cons a rest ih =>
    simp only [mapME, h a (List.mem_cons_self a rest), bind, Except.bind]
    rw [ih (fun a2 h2 => h a2 (List.mem_cons_of_mem a h2))]
    rfl

/-- Under well-formed wavelengths (unset or 3-tuples), the numeric candidate
filter of `get_dataset_key` succeeds and keeps exactly the keys whose
interval contains the query. -/
theorem gdkNumFilter_eq (q : PyNum) (ks : List DatasetID)
    (h : ∀ k ∈ ks, k.wavelength = .none ∨ ∃ x y z, k.wavelength = .tuple [x, y, z]) :
    gdkNumFilter q ks = .ok (ks.filter (wlContains q)) := by
  induction ks with
  | nil => rfl
  | cons k rest ih =>
    have hr := ih (fun k2 h2 => h k2 (List.mem_cons_of_mem k h2))
    rcases h k (List.mem_cons_self k rest) with hw | ⟨x, y, z, hw⟩
    · have hstep : gdkNumFilter q (k :: rest) = gdkNumFilter q rest := by
        simp only [gdkNumFilter]
        rw [hw]
        rfl
      rw [hstep, List.filter_cons_of_neg (by simp [wlContains, hw]), hr]
    · have hstep : gdkNumFilter q (k :: rest) =
          (if x.leb q = true then (do
              let tail ← gdkNumFilter q rest
              pure (if q.leb z = true then k :: tail else tail))
            else (do
              let tail ← gdkNumFilter q rest
              pure tail)) := by
        simp only [gdkNumFilter]
        rw [hw]
        rfl
      rw [hstep]
      have hcont : wlContains q k = (x.leb q && q.leb z) := by
        unfold wlContains
        rw [hw]
      by_cases hx : x.leb q = true
      · rw [if_pos hx]
        simp only [hr, bind, Except.bind, pure, Except.pure]
        by_cases hz : q.leb z = true
        · rw [List.filter_cons_of_pos (by rw [hcont, hx, hz]; rfl)]
          simp [hz]
        · rw [List.filter_cons_of_neg (by rw [hcont]; simp [hz])]
          simp [hz]
      · rw [if_neg hx]
        simp only [hr, bind, Except.bind, pure, Except.pure]
        rw [List.filter_cons_of_neg (by rw [hcont]; simp [hx])]

/-- For 3-tuple wavelengths the sort-key computation succeeds and pairs each
candidate with its centre distance. -/
theorem gdkSortPairs_eq (q : PyNum) (ks : List DatasetID)
    (h : ∀ k ∈ ks, ∃ x y z, k.wavelength = .tuple [x, y, z]) :
    gdkSortPairs q ks = .ok (ks.map (fun d => (centerDist d q, d))) := by
  unfold gdkSortPairs
  refine mapME_ok_of_all _ _ ks ?_
  intro d hd
  obtain ⟨x, y, z, hw⟩ := h d hd
  have hc : centerDist d q = |y.toRat - q.toRat| := by
    unfold centerDist
    rw [hw]
    rfl
  rw [hw, hc]
  rfl

/-- With no explicit filters and calibrations all compatible with the default
preference, the common tail of `get_dataset_key` is the identity on a
nonempty candidate list. -/
theorem gdkCommonFilter_default (ds : List DatasetID)
    (hcal : ∀ d ∈ ds, d.calibration = Option.none ∨
      d.calibration = some "brightness_temperature" ∨
      d.calibration = some "reflectance")
    (hne : ds ≠ []) :
    gdkCommonFilter ds Option.none Option.none Option.none = .ok ds := by
  have hfilter : ds.filter (fun d => d.calibration.isNone ||
      optMemStr d.calibration (calOrder.filter (fun x =>
        ([some "brightness_temperature", some "reflectance"] :
          List (Option String)).contains (some x)))) = ds := by
    refine List.filter_eq_self.mpr ?_
    intro d hd
    rcases hcal d hd with hc | hc | hc <;> simp [hc, optMemStr, calOrder]
  simp only [gdkCommonFilter]
  rw [hfilter]
  rw [if_neg (by simp [List.isEmpty_iff, hne])]

/-- C2 (amended): numeric key lookup considers exactly the stored keys whose
wavelength interval contains the query, but only `Reader.get_dataset_key`
picks a closest-centre winner.  Part one: `DatasetDict.get_key` on a number
returns the first stored key (in iteration order) whose wavelength is set
and matches the query — not necessarily the one with the closest centre.
Part two: on a registry whose wavelengths are unset or numeric 3-tuples and
whose calibrations pass the default calibration filter,
`Reader.get_dataset_key` on a number returns a stored key whose interval
contains the query and whose centre distance to the query is minimal among
all containing keys. -/
theorem numeric_lookup_resolution :
    (∀ (R : DDict) (q : PyNum) (k : DatasetID),
      getKey R (.num q) = .ok (some k) →
      ∃ l1 l2, keysOf R = l1 ++ k :: l2 ∧
        (∀ k2 ∈ l1, k2.wavelength = .none ∨
          wlMatch k2.wavelength (.num q) = .ok false) ∧
        ¬ k.wavelength = .none ∧ wlMatch k.wavelength (.num q) = .ok true) ∧
    (∀ (R : DDict) (q : PyNum) (d : DatasetID),
      (∀ k ∈ keysOf R, k.wavelength = .none ∨
        ∃ x y z, k.wavelength = .tuple [x, y, z]) →
      (∀ k ∈ keysOf R, k.calibration = Option.none ∨
        k.calibration = some "brightness_temperature" ∨
        k.calibration = some "reflectance") →
      getDatasetKey R (.num q) = .ok d →
      d ∈ keysOf R ∧ wlContains q d = true ∧
        ∀ k ∈ keysOf R, wlContains q k = true → centerDist d q ≤ centerDist k q) := by
  constructor
  · intro R q k h
    exact findWlMatch_first q (keysOf R) k h
  · intro R q d hshape hcal h
    have hfilterC := gdkNumFilter_eq q (keysOf R) hshape
    have hCshape : ∀ k ∈ (keysOf R).filter (wlContains q),
        ∃ x y z, k.wavelength = .tuple [x, y, z] := by
      intro k hk
      obtain ⟨x, y, z, hw, _, _⟩ := wlContains_true_shape (List.mem_filter.mp hk).2
      exact ⟨x, y, z, hw⟩
    have hpairs := gdkSortPairs_eq q _ hCshape
    simp only [getDatasetKey, getDatasetKeyList, gdkBase, hfilterC, hpairs, bind,
      Except.bind] at h
    cases hs : List.insertionSort distLE
        (((keysOf R).filter (wlContains q)).map (fun d => (centerDist d q, d))) with
    | nil =>
      rw [hs] at h
      exact absurd h (by simp [bind, Except.bind])
    | cons p0 stail =>
      rw [hs] at h
      have hmapcons : List.map (fun x : Rat × DatasetID => x.2) (p0 :: stail) =
          p0.2 :: List.map (fun x : Rat × DatasetID => x.2) stail := rfl
      rw [hmapcons] at h
      have hdsets : ∀ d2 ∈ p0.2 :: List.map (fun x : Rat × DatasetID => x.2) stail,
          d2 ∈ keysOf R := by
        intro d2 hd2
        have hmem : d2 ∈ List.map (fun x : Rat × DatasetID => x.2) (p0 :: stail) := hd2
        obtain ⟨p, hp, hpd⟩ := List.mem_map.mp hmem
        have hpin : p ∈ ((keysOf R).filter (wlContains q)).map
            (fun d => (centerDist d q, d)) := by
          refine (List.mem_insertionSort distLE).mp ?_
          rw [hs]
          exact hp
        obtain ⟨c2, hc2mem, hc2⟩ := List.mem_map.mp hpin
        rw [← hpd, ← hc2]
        exact (List.mem_filter.mp hc2mem).1
      rw [if_neg (by simp)] at h
      rw [gdkCommonFilter_default _ (fun d2 hd2 => hcal d2 (hdsets d2 hd2))
        (by simp)] at h
      simp only [bind, Except.bind, pure, Except.pure] at h
      injection h with h
      subst h
      have hmem0 : p0 ∈ ((keysOf R).filter (wlContains q)).map
          (fun d => (centerDist d q, d)) := by
        refine (List.mem_insertionSort distLE).mp ?_
        rw [hs]
        exact List.mem_cons_self p0 stail
      obtain ⟨c0, hc0mem, hc0⟩ := List.mem_map.mp hmem0
      have hc0snd : p0.2 = c0 := by rw [← hc0]
      have hc0fst : p0.1 = centerDist c0 q := by rw [← hc0]
      refine ⟨?_, ?_, ?_⟩
      · rw [hc0snd]
        exact (List.mem_filter.mp hc0mem).1
      · rw [hc0snd]
        exact (List.mem_filter.mp hc0mem).2
      · intro k hk hkcont
        have hkC : k ∈ (keysOf R).filter (wlContains q) :=
          List.mem_filter.mpr ⟨hk, hkcont⟩
        have hkpair : (centerDist k q, k) ∈
            ((keysOf R).filter (wlContains q)).map (fun d => (centerDist d q, d)) :=
          List.mem_map_of_mem _ hkC
        have hksorted : (centerDist k q, k) ∈ p0 :: stail := by
          rw [← hs]
          exact (List.mem_insertionSort distLE).mpr hkpair
        have hsorted : List.Sorted distLE (p0 :: stail) := by
          rw [← hs]
          exact List.sorted_insertionSort distLE _
        rcases List.mem_cons.mp hksorted with heq | htl
        · rw [← heq]
        · have hle := (List.pairwise_cons.mp hsorted).1 _ htl
          rw [hc0snd, ← hc0fst]
          exact hle

/-- C2 witness: on a one-key registry holding the interval (2,3,4) and query
3.0, `get_key` returns that key as the first match (with an empty prefix of
skipped keys) and `get_dataset_key` returns it as the minimal-distance
containing candidate. -/
theorem numeric_lookup_resolution_witness :
    (∃ l1 l2, keysOf [(kNear, ({} : MetaVal))] = l1 ++ kNear :: l2 ∧
      (∀ k2 ∈ l1, k2.wavelength = .none ∨
        wlMatch k2.wavelength (.num (.float 3)) = .ok false) ∧
      ¬ kNear.wavelength = .none ∧
      wlMatch kNear.wavelength (.num (.float 3)) = .ok true) ∧
    (kNear ∈ keysOf [(kNear, ({} : MetaVal))] ∧ wlContains (.float 3) kNear = true ∧
      ∀ k ∈ keysOf [(kNear, ({} : MetaVal))], wlContains (.float 3) k = true →
        centerDist kNear (.float 3) ≤ centerDist k (.float 3)) :=
  ⟨numeric_lookup_resolution.1 [(kNear, {})] (.float 3) kNear rfl,
   numeric_lookup_resolution.2 [(kNear, {})] (.float 3) kNear
     (by
       intro k hk
       simp only [keysOf, List.map_cons, List.map_nil, List.mem_cons,
         List.not_mem_nil, or_false] at hk
       subst hk
       exact Or.inr ⟨.float 2, .float 3, .float 4, rfl⟩)
     (by
       intro k hk
       simp only [keysOf, List.map_cons, List.map_nil, List.mem_cons,
         List.not_mem_nil, or_false] at hk
       subst hk
       exact Or.inl rfl)
     rfl⟩

end Satpy
